import Mathlib

/-!
Shallow embedding of the weather-statistics pipeline in `Temp_Statistic.py`
(repository "Addressing Urban Heat Island effects in Newcastle").

Machine reals are modelled as exact rationals (`ℚ`); the remote HTTP
response is modelled as an explicit input value (`FetchResponse`); an
uncaught Python exception is modelled as `Except.error`; `datetime.now()`
observations are explicit `DateTime` inputs, one per source function that
calls it.
-/

namespace TempStatistic

/-- Calendar date, as parsed by `pd.to_datetime` from the `daily.time`
strings of the archive API response. -/
structure Date where
  year : Nat
  month : Nat
  day : Nat
deriving DecidableEq

/-- Linearisation of a date for order comparisons (lexicographic on
year, month, day, as for real calendar dates with month ≤ 12, day ≤ 31). -/
def Date.key (d : Date) : Nat := d.year * 10000 + d.month * 100 + d.day

/-- One row of the data frame built by `get_historical_temperature`
(`Temp_Statistic.py` lines 76-84). -/
structure DailyWeatherRecord where
  date : Date
  temperature_max : ℚ
  temperature_min : ℚ
  temperature_mean : ℚ
  humidity : ℚ
  precipitation : ℚ
deriving DecidableEq

/-- The `daily` object of the archive API's JSON response: parallel arrays
per metric, keyed by `time` (spec §6). -/
structure DailyBlock where
  time : List Date
  temperature_2m_max : List ℚ
  temperature_2m_min : List ℚ
  temperature_2m_mean : List ℚ
  relative_humidity_2m_mean : List ℚ
  precipitation_sum : List ℚ
deriving DecidableEq

/-- Outcome of the one HTTP request `requests.get(url)` issued per
location: either the request raises (network error) or it yields a parsed
JSON body, which may or may not contain the `daily` object. -/
inductive FetchResponse where
  | networkError
  | json (daily : Option DailyBlock)
deriving DecidableEq

/-- One entry of the `coordinates_list` built by
`get_coordinates_from_yaml` (`Temp_Statistic.py` lines 40-48). -/
structure Coord where
  aim_id : String
  address : String
  latitude : ℚ
  longitude : ℚ
deriving DecidableEq

/-- Row-wise zip of the six parallel `daily` arrays into data-frame rows,
as the `pd.DataFrame({...})` constructor at lines 76-84 does. -/
def zipRecords : List Date → List ℚ → List ℚ → List ℚ → List ℚ → List ℚ →
    List DailyWeatherRecord
  | t :: ts, a :: tmaxs, b :: tmins, c :: tmeans, d :: hums, e :: precs =>
      ⟨t, a, b, c, d, e⟩ :: zipRecords ts tmaxs tmins tmeans hums precs
  | _, _, _, _, _, _ => []

/-- Embedding of `get_historical_temperature` (lines 54-84): no try/except around the
request, so a network error propagates; a JSON body without the `daily`
key falls off the end of the function and returns `None`; otherwise the
six parallel arrays become the rows of a data frame. -/
def get_historical_temperature (resp : FetchResponse) :
    Except Unit (Option (List DailyWeatherRecord)) :=
  match resp with
  | .networkError => .error ()
  | .json none => .ok none
  | .json (some daily) =>
      .ok (some (zipRecords daily.time daily.temperature_2m_max
        daily.temperature_2m_min daily.temperature_2m_mean
        daily.relative_humidity_2m_mean daily.precipitation_sum))

/-- The month→season dict literal mapped over the `month` column
(`Temp_Statistic.py` lines 134-147; the same literal appears at lines
192-205). A month outside the dict's keys maps to `none` (pandas NaN). -/
def seasonMap : List (Nat × String) :=
  [(12, "Winter"), (1, "Winter"), (2, "Winter"),
   (3, "Spring"), (4, "Spring"), (5, "Spring"),
   (6, "Summer"), (7, "Summer"), (8, "Summer"),
   (9, "Autumn"), (10, "Autumn"), (11, "Autumn")]

/-- Embedding of `df['month'].map({...})`: dictionary lookup of a month. -/
def monthToSeason (m : Nat) : Option String :=
  seasonMap.lookup m

/-- The `pandas` series mean: sum divided by count. -/
def seriesMean (xs : List ℚ) : ℚ := xs.sum / xs.length

/-- The `pandas` series min over a (nonempty) group. -/
def seriesMin : List ℚ → ℚ
  | [] => 0
  | x :: xs => xs.foldl min x

/-- The `pandas` series max over a (nonempty) group. -/
def seriesMax : List ℚ → ℚ
  | [] => 0
  | x :: xs => xs.foldl max x

/-- Embedding of `.round(2)`: round to two decimal places. -/
def round2 (q : ℚ) : ℚ := (round (q * 100) : ℤ) / 100

/-- A wall-clock instant, as observed by one `datetime.now()` call. -/
structure DateTime where
  year : Nat
  month : Nat
  day : Nat
  hour : Nat
  minute : Nat
  second : Nat
deriving DecidableEq

/-- Zero-pad a number to two digits, as `%m %d %H %M %S` do. -/
def pad2 (n : Nat) : String := if n < 10 then "0" ++ toString n else toString n

/-- Zero-pad a year to four digits, as `%Y` does for years below 10000. -/
def pad4 (n : Nat) : String :=
  if n < 10 then "000" ++ toString n
  else if n < 100 then "00" ++ toString n
  else if n < 1000 then "0" ++ toString n
  else toString n

/-- Embedding of `datetime.now().strftime("%Y%m%d_%H%M%S")`. -/
def strftimeTimestamp (t : DateTime) : String :=
  pad4 t.year ++ pad2 t.month ++ pad2 t.day ++ "_" ++
    pad2 t.hour ++ pad2 t.minute ++ pad2 t.second

/-- One element of the `temperature_data` list built by the pipeline loop
(`Temp_Statistic.py` lines 298-304). -/
structure TempEntry where
  lat : ℚ
  lng : ℚ
  avg_temp : ℚ
  aim_id : String
  address : String
deriving DecidableEq

/-- The observable result of `create_heatmap` (lines 89-111): the map
center, the weighted heat points, and the path of the HTML file written. -/
structure HeatmapOutput where
  center_lat : ℚ
  center_lng : ℚ
  heatmap_data : List (ℚ × ℚ × ℚ)
  file_path : String
deriving DecidableEq

/-- Embedding of `create_heatmap(temperature_data, output_path)` (lines 89-111), with
its internal `datetime.now()` observation made an explicit argument. -/
def create_heatmap (temperature_data : List TempEntry) (output_path : String)
    (now : DateTime) : HeatmapOutput :=
  let lats := temperature_data.map (·.lat)
  let lngs := temperature_data.map (·.lng)
  let center_lat := lats.sum / lats.length
  let center_lng := lngs.sum / lngs.length
  let heatmap_data := temperature_data.map fun d => (d.lat, d.lng, d.avg_temp)
  let timestamp := strftimeTimestamp now
  { center_lat := center_lat
    center_lng := center_lng
    heatmap_data := heatmap_data
    file_path := output_path ++ "/temperature_heatmap_" ++ timestamp ++ ".html" }

/-- A data frame of daily records for one location. -/
abbrev DF := List DailyWeatherRecord

/-- The rows of `df` whose month falls in season `s`, projected to one
metric column: the group `grouped.loc[s]` restricted to that metric. -/
def seasonColumn (df : DF) (f : DailyWeatherRecord → ℚ) (s : String) : List ℚ :=
  (df.filter fun r => monthToSeason r.date.month = some s).map f

/-- The aggregation dict passed to `.agg` at lines 164-170: per metric
name, the column projection and the list of statistics computed for it. -/
def aggDict : List ((DailyWeatherRecord → ℚ) × String × List String) :=
  [(fun r => r.temperature_mean, "temperature_mean", ["mean", "min", "max"]),
   (fun r => r.temperature_max, "temperature_max", ["mean", "min", "max"]),
   (fun r => r.temperature_min, "temperature_min", ["mean", "min", "max"]),
   (fun r => r.humidity, "humidity", ["mean", "min", "max"]),
   (fun r => r.precipitation, "precipitation", ["sum", "mean", "max"])]

/-- Dispatch of a pandas aggregation name to its series function. -/
def applyStat (stat : String) (xs : List ℚ) : ℚ :=
  if stat = "mean" then seriesMean xs
  else if stat = "min" then seriesMin xs
  else if stat = "max" then seriesMax xs
  else xs.sum

/-- Python's `str.lower()` on a season label (character-wise ASCII
lowering; season labels are ASCII). -/
def lowerString (s : String) : String := ⟨s.data.map Char.toLower⟩

/-- The distinct season labels present in `df`, i.e. the group keys of
`df.groupby('season')` (rows whose month maps to NaN are dropped). -/
def seasonsOf (df : DF) : List String :=
  (df.filterMap fun r => monthToSeason r.date.month).dedup

/-- The flattened `"{season}_{metric}_{statistic}"` entries of one season
group (lines 164-175): for each metric of the agg dict, each of its
statistics applied to the group's column and rounded to two places. -/
def statPairs (df : DF) (s : String) : List (String × ℚ) :=
  aggDict.flatMap fun ma =>
    ma.2.2.map fun stat =>
      (lowerString s ++ "_" ++ ma.2.1 ++ "_" ++ stat,
       round2 (applyStat stat (seasonColumn df ma.1 s)))

/-- One row of the aggregate statistics table (`stats_dict`,
lines 157-176): location identity fields plus all seasonal entries. -/
structure StatsRow where
  aim_id : String
  address : Option String
  latitude : Option ℚ
  longitude : Option ℚ
  stats : List (String × ℚ)
deriving DecidableEq

/-- Build `stats_dict` for one location (lines 155-176): identity fields
come from the first `all_data` entry with a matching `aim_id`
(`next(..., {})` with `.get`), then the grouped seasonal entries. -/
def statsRowFor (all_data : List TempEntry) (aim : String) (df : DF) : StatsRow :=
  let location := all_data.find? fun d => d.aim_id = aim
  { aim_id := aim
    address := location.map (·.address)
    latitude := location.map (·.lat)
    longitude := location.map (·.lng)
    stats := (seasonsOf df).flatMap fun s => statPairs df s }

/-- Observable result of `save_temperature_data` (lines 114-182): the JSON
summary filename, the per-location detail CSV filenames, the aggregate
statistics rows, and the statistics CSV filename. -/
structure SaveOutput where
  summary_file : String
  detail_files : List String
  stats_rows : List StatsRow
  stats_file : String
deriving DecidableEq

/-- Embedding of `save_temperature_data(all_data, detailed_data, output_path)`
(lines 114-182), with its `datetime.now()` made explicit. The same
timestamp names the JSON summary, every per-location CSV and the
statistics CSV of this call. -/
def save_temperature_data (all_data : List TempEntry)
    (detailed_data : List (String × DF)) (output_path : String)
    (now : DateTime) : SaveOutput :=
  let timestamp := strftimeTimestamp now
  { summary_file := output_path ++ "/temperature_summary_" ++ timestamp ++ ".json"
    detail_files := detailed_data.map fun kv =>
      output_path ++ "/temperature_data_" ++ kv.1 ++ "_" ++ timestamp ++ ".csv"
    stats_rows := detailed_data.map fun kv => statsRowFor all_data kv.1 kv.2
    stats_file := output_path ++ "/temperature_statistics_" ++ timestamp ++ ".csv" }

/-- Embedding of `create_trend_plots(detailed_data, output_path)` (lines 185-273):
observable effect is the list of PNG files written, one per location,
named with this call's own `datetime.now()` timestamp. -/
def create_trend_plots (detailed_data : List (String × DF))
    (output_path : String) (now : DateTime) : List String :=
  let timestamp := strftimeTimestamp now
  detailed_data.map fun kv =>
    output_path ++ "/temperature_trends_" ++ kv.1 ++ "_" ++ timestamp ++ ".png"

/-- Python dict assignment `d[k] = v`: replace the value at an existing
key in place, else append the binding at the end. -/
def dictInsert (k : String) (v : DF) :
    List (String × DF) → List (String × DF)
  | [] => [(k, v)]
  | kv :: rest => if kv.1 = k then (k, v) :: rest else kv :: dictInsert k v rest

/-- The `temperature_data` entry appended for a successful fetch
(`Temp_Statistic.py` lines 297-304). -/
def mkEntry (c : Coord) (df : DF) : TempEntry :=
  ⟨c.latitude, c.longitude, seriesMean (df.map (·.temperature_mean)),
   c.aim_id, c.address⟩

/-- One iteration of the fetch loop (lines 292-305). A network error at
any location is an uncaught exception that aborts the run (the error
state absorbs all later iterations); a `None` frame skips the location;
a fetched frame appends a `temperature_data` entry and stores the frame
in the `detailed_data` dict. -/
def fetchStep (acc : Except Unit (List TempEntry × List (String × DF)))
    (it : Coord × FetchResponse) :
    Except Unit (List TempEntry × List (String × DF)) :=
  match acc with
  | .error e => .error e
  | .ok (td, dd) =>
    match get_historical_temperature it.2 with
    | .error e => .error e
    | .ok none => .ok (td, dd)
    | .ok (some df) => .ok (td ++ [mkEntry it.1 df], dictInsert it.1.aim_id df dd)

/-- The fetch loop of `process_temperature_pipeline` (lines 292-305),
processing locations in order. -/
def fetchLoop (items : List (Coord × FetchResponse)) :
    Except Unit (List TempEntry × List (String × DF)) :=
  items.foldl fetchStep (.ok ([], []))

/-- The `datetime.now()` observations of one pipeline run, in the order
the source functions make them: `create_heatmap` (line 104),
`create_trend_plots` (line 187), `save_temperature_data` (line 116). -/
structure Clock where
  heatmapNow : DateTime
  trendNow : DateTime
  saveNow : DateTime
deriving DecidableEq

/-- Everything one pipeline run writes: `none`/`[]` components mean the
corresponding files were not written. -/
structure PipelineOutput where
  heatmap : Option HeatmapOutput
  trend_files : List String
  save : Option SaveOutput
deriving DecidableEq

/-- Embedding of `process_temperature_pipeline` (lines 276-310) after config and
coordinate loading: each coordinate is paired with the response its HTTP
request produces. Outputs are created only under the
`if temperature_data:` guard at line 307. -/
def process_temperature_pipeline (items : List (Coord × FetchResponse))
    (output_path : String) (clk : Clock) : Except Unit PipelineOutput :=
  match fetchLoop items with
  | .error e => .error e
  | .ok (temperature_data, detailed_data) =>
    if temperature_data.isEmpty then
      .ok { heatmap := none, trend_files := [], save := none }
    else
      .ok { heatmap := some (create_heatmap temperature_data output_path clk.heatmapNow)
            trend_files := create_trend_plots detailed_data output_path clk.trendNow
            save := some (save_temperature_data temperature_data detailed_data
              output_path clk.saveNow) }

/-! ### Derived characterisations of the fetch loop -/

/-- A response for which the fetch succeeds (returns a data frame). -/
def hasDaily : FetchResponse → Bool
  | .json (some _) => true
  | _ => false

/-- Number of locations whose fetch succeeded. -/
def successCount (items : List (Coord × FetchResponse)) : Nat :=
  (items.filter fun it => hasDaily it.2).length

/-- The `temperature_data` list the loop produces when no request raises:
exactly the locations whose fetch returned a frame, in order. -/
def successEntries (items : List (Coord × FetchResponse)) : List TempEntry :=
  items.filterMap fun it =>
    match get_historical_temperature it.2 with
    | .ok (some df) => some (mkEntry it.1 df)
    | _ => none

/-- The `(aim_id, frame)` pairs of the successful fetches, in order. -/
def successDetails (items : List (Coord × FetchResponse)) :
    List (String × DF) :=
  items.filterMap fun it =>
    match get_historical_temperature it.2 with
    | .ok (some df) => some (it.1.aim_id, df)
    | _ => none

/-- The `detailed_data` dict updates of the loop, in isolation. -/
def detailStep (dd : List (String × DF)) (it : Coord × FetchResponse) :
    List (String × DF) :=
  match get_historical_temperature it.2 with
  | .ok (some df) => dictInsert it.1.aim_id df dd
  | _ => dd

lemma foldl_fetchStep_error (items : List (Coord × FetchResponse)) (e : Unit) :
    items.foldl fetchStep (.error e) = .error e := by
  induction items with
  | nil => rfl
  | cons it rest ih => simpa [fetchStep] using ih

lemma fetchStep_networkError (acc) (c : Coord) :
    fetchStep acc (c, FetchResponse.networkError) = .error () := by
  match acc with
  | .error e => rfl
  | .ok (td, dd) => rfl

lemma fetchLoop_ok_no_networkError :
    ∀ (items : List (Coord × FetchResponse)) (acc) (x),
      items.foldl fetchStep acc = .ok x →
      ∀ it ∈ items, it.2 ≠ FetchResponse.networkError := by
  intro items
  induction items with
  | nil => intro acc x _ it hit; cases hit
  | cons hd rest ih =>
    intro acc x hfold it hit
    rcases List.mem_cons.mp hit with hhd | hrest
    · subst hhd
      intro hne
      rcases it with ⟨c, resp⟩
      cases hne
      rw [List.foldl_cons, fetchStep_networkError, foldl_fetchStep_error] at hfold
      exact Except.noConfusion hfold
    · exact ih _ _ (by simpa [List.foldl_cons] using hfold) it hrest

/-- Under no network error, the loop computes `successEntries` for
`temperature_data` and folds `detailStep` for `detailed_data`. -/
lemma foldl_fetchStep_eq :
    ∀ (items : List (Coord × FetchResponse)) (td : List TempEntry)
      (dd : List (String × DF)),
      (∀ it ∈ items, it.2 ≠ FetchResponse.networkError) →
      items.foldl fetchStep (.ok (td, dd)) =
        .ok (td ++ successEntries items, items.foldl detailStep dd) := by
  intro items
  induction items with
  | nil => intro td dd _; simp [successEntries]
  | cons hd rest ih =>
    intro td dd h
    rcases hd with ⟨c, resp⟩
    have hne : resp ≠ FetchResponse.networkError := h _ (List.mem_cons_self _ _)
    match resp with
    | .networkError => exact absurd rfl hne
    | .json none =>
      have := ih td dd (fun it hit => h it (List.mem_cons_of_mem _ hit))
      simpa [List.foldl_cons, fetchStep, detailStep, get_historical_temperature,
        successEntries, List.filterMap_cons] using this
    | .json (some b) =>
      have := ih (td ++ [mkEntry c (zipRecords b.time b.temperature_2m_max
        b.temperature_2m_min b.temperature_2m_mean b.relative_humidity_2m_mean
        b.precipitation_sum)])
        (dictInsert c.aim_id (zipRecords b.time b.temperature_2m_max
          b.temperature_2m_min b.temperature_2m_mean b.relative_humidity_2m_mean
          b.precipitation_sum) dd)
        (fun it hit => h it (List.mem_cons_of_mem _ hit))
      simpa [List.foldl_cons, fetchStep, detailStep, get_historical_temperature,
        successEntries, List.filterMap_cons, List.append_assoc] using this

lemma fetchLoop_eq (items : List (Coord × FetchResponse))
    (h : ∀ it ∈ items, it.2 ≠ FetchResponse.networkError) :
    fetchLoop items = .ok (successEntries items, items.foldl detailStep []) := by
  simpa [fetchLoop] using foldl_fetchStep_eq items [] [] h

lemma mem_dictInsert {k : String} {v : DF} :
    ∀ (dd : List (String × DF)) (kv), kv ∈ dictInsert k v dd →
      kv = (k, v) ∨ kv ∈ dd := by
  intro dd
  induction dd with
  | nil => intro kv h; simpa [dictInsert] using h
  | cons hd rest ih =>
    intro kv h
    by_cases hk : hd.1 = k
    · simp only [dictInsert, if_pos hk] at h
      rcases List.mem_cons.mp h with h1 | h2
      · exact Or.inl h1
      · exact Or.inr (List.mem_cons_of_mem _ h2)
    · simp only [dictInsert, if_neg hk] at h
      rcases List.mem_cons.mp h with h1 | h2
      · exact Or.inr (h1 ▸ List.mem_cons_self _ _)
      · rcases ih kv h2 with h3 | h4
        · exact Or.inl h3
        · exact Or.inr (List.mem_cons_of_mem _ h4)

/-- Every binding of the accumulated dict comes from the initial dict or
from a successful fetch in the processed list. -/
lemma mem_foldl_detailStep :
    ∀ (items : List (Coord × FetchResponse)) (dd0 : List (String × DF)) (kv),
      kv ∈ items.foldl detailStep dd0 →
      kv ∈ dd0 ∨ ∃ it ∈ items, hasDaily it.2 = true ∧ kv.1 = it.1.aim_id := by
  intro items
  induction items with
  | nil => intro dd0 kv h; exact Or.inl h
  | cons hd rest ih =>
    intro dd0 kv h
    rw [List.foldl_cons] at h
    rcases ih (detailStep dd0 hd) kv h with h0 | ⟨it, hit, hd1, hd2⟩
    · rcases hd with ⟨c, resp⟩
      match resp with
      | .networkError => exact Or.inl h0
      | .json none => exact Or.inl h0
      | .json (some b) =>
        simp only [detailStep, get_historical_temperature] at h0
        rcases mem_dictInsert _ kv h0 with h1 | h2
        · exact Or.inr ⟨(c, .json (some b)), List.mem_cons_self _ _, rfl, by simp [h1]⟩
        · exact Or.inl h2
    · exact Or.inr ⟨it, List.mem_cons_of_mem _ hit, hd1, hd2⟩

lemma dictInsert_of_not_mem {k : String} {v : DF} :
    ∀ {dd : List (String × DF)}, k ∉ dd.map Prod.fst →
      dictInsert k v dd = dd ++ [(k, v)] := by
  intro dd
  induction dd with
  | nil => intro _; rfl
  | cons hd rest ih =>
    intro h
    simp only [List.map_cons, List.mem_cons] at h
    push_neg at h
    simp only [dictInsert, if_neg (Ne.symm h.1), ih h.2, List.cons_append]

/-- With pairwise-distinct ids (as YAML mapping keys are), the dict is
just the ordered list of successful `(aim_id, frame)` pairs. -/
lemma foldl_detailStep_eq :
    ∀ (items : List (Coord × FetchResponse)) (dd0 : List (String × DF)),
      (∀ it ∈ items, it.1.aim_id ∉ dd0.map Prod.fst) →
      (items.map fun it => it.1.aim_id).Nodup →
      items.foldl detailStep dd0 = dd0 ++ successDetails items := by
  intro items
  induction items with
  | nil => intro dd0 _ _; simp [successDetails]
  | cons hd rest ih =>
    intro dd0 hdisj hnodup
    rcases hd with ⟨c, resp⟩
    simp only [List.map_cons, List.nodup_cons] at hnodup
    match resp with
    | .networkError =>
      rw [List.foldl_cons]
      have : detailStep dd0 (c, FetchResponse.networkError) = dd0 := rfl
      rw [this, ih dd0 (fun it hit => hdisj it (List.mem_cons_of_mem _ hit)) hnodup.2]
      simp [successDetails, List.filterMap_cons, get_historical_temperature]
    | .json none =>
      rw [List.foldl_cons]
      have : detailStep dd0 (c, FetchResponse.json none) = dd0 := rfl
      rw [this, ih dd0 (fun it hit => hdisj it (List.mem_cons_of_mem _ hit)) hnodup.2]
      simp [successDetails, List.filterMap_cons, get_historical_temperature]
    | .json (some b) =>
      rw [List.foldl_cons]
      have hstep : detailStep dd0 (c, FetchResponse.json (some b)) =
          dd0 ++ [(c.aim_id, zipRecords b.time b.temperature_2m_max
            b.temperature_2m_min b.temperature_2m_mean
            b.relative_humidity_2m_mean b.precipitation_sum)] := by
        simp only [detailStep, get_historical_temperature]
        exact dictInsert_of_not_mem (hdisj _ (List.mem_cons_self _ _))
      rw [hstep, ih _ ?hdisj hnodup.2]
      · simp [successDetails, List.filterMap_cons, get_historical_temperature,
          List.append_assoc]
      case hdisj =>
        intro it hit
        simp only [List.map_append, List.mem_append, List.map_cons]
        push_neg
        refine ⟨hdisj it (List.mem_cons_of_mem _ hit), ?_⟩
        intro hmem
        simp only [List.map_nil, List.mem_singleton] at hmem
        exact hnodup.1 (hmem ▸ List.mem_map_of_mem (fun it => it.1.aim_id) hit)

lemma successEntries_length (items : List (Coord × FetchResponse)) :
    (successEntries items).length = successCount items := by
  induction items with
  | nil => rfl
  | cons hd rest ih =>
    rcases hd with ⟨c, resp⟩
    match resp with
    | .networkError =>
      simpa [successEntries, successCount, get_historical_temperature, hasDaily,
        List.filter_cons, List.filterMap_cons] using ih
    | .json none =>
      simpa [successEntries, successCount, get_historical_temperature, hasDaily,
        List.filter_cons, List.filterMap_cons] using ih
    | .json (some b) =>
      simpa [successEntries, successCount, get_historical_temperature, hasDaily,
        List.filter_cons, List.filterMap_cons] using ih

lemma successDetails_length (items : List (Coord × FetchResponse)) :
    (successDetails items).length = successCount items := by
  induction items with
  | nil => rfl
  | cons hd rest ih =>
    rcases hd with ⟨c, resp⟩
    match resp with
    | .networkError =>
      simpa [successDetails, successCount, get_historical_temperature, hasDaily,
        List.filter_cons, List.filterMap_cons] using ih
    | .json none =>
      simpa [successDetails, successCount, get_historical_temperature, hasDaily,
        List.filter_cons, List.filterMap_cons] using ih
    | .json (some b) =>
      simpa [successDetails, successCount, get_historical_temperature, hasDaily,
        List.filter_cons, List.filterMap_cons] using ih

lemma successEntries_eq_nil_iff (items : List (Coord × FetchResponse)) :
    successEntries items = [] ↔ successCount items = 0 := by
  constructor
  · intro h
    have := successEntries_length items
    rw [h] at this
    exact this.symm
  · intro h
    have := successEntries_length items
    rw [h] at this
    exact List.length_eq_zero.mp this

lemma zipRecords_map_date :
    ∀ (t : List Date) (a b c d e : List ℚ),
      a.length = t.length → b.length = t.length → c.length = t.length →
      d.length = t.length → e.length = t.length →
      (zipRecords t a b c d e).map (·.date) = t := by
  intro t
  induction t with
  | nil => intro a b c d e _ _ _ _ _; cases a <;> cases b <;> cases c <;>
      cases d <;> cases e <;> rfl
  | cons hd tl ih =>
    intro a b c d e ha hb hc hd1 he
    match a, ha with
    | x1 :: a', ha =>
    match b, hb with
    | x2 :: b', hb =>
    match c, hc with
    | x3 :: c', hc =>
    match d, hd1 with
    | x4 :: d', hd1 =>
    match e, he with
    | x5 :: e', he =>
    simp only [List.length_cons, Nat.succ.injEq] at ha hb hc hd1 he
    simp only [zipRecords, List.map_cons]
    rw [ih a' b' c' d' e' ha hb hc hd1 he]

/-! ### Claims -/

/-- C2: the month-to-season mapping used before aggregation is total over
every month in 1..12 and partitions the twelve months into four disjoint
three-month groups: Dec, Jan, Feb → Winter; Mar, Apr, May → Spring;
Jun, Jul, Aug → Summer; Sep, Oct, Nov → Autumn. -/
theorem monthToSeason_total_partition :
    ∀ m ∈ Finset.Icc 1 12,
      (monthToSeason m).isSome = true ∧
      (monthToSeason m = some "Winter" ↔ m = 12 ∨ m = 1 ∨ m = 2) ∧
      (monthToSeason m = some "Spring" ↔ m = 3 ∨ m = 4 ∨ m = 5) ∧
      (monthToSeason m = some "Summer" ↔ m = 6 ∨ m = 7 ∨ m = 8) ∧
      (monthToSeason m = some "Autumn" ↔ m = 9 ∨ m = 10 ∨ m = 11) := by
  decide

/-- Witness for C2 at the concrete month 12. -/
theorem monthToSeason_total_partition_witness :
    (12 ∈ Finset.Icc 1 12) ∧ monthToSeason 12 = some "Winter" := by
  refine ⟨by decide, ?_⟩
  exact ((monthToSeason_total_partition 12 (by decide)).2.1).mpr (Or.inl rfl)

/-- C8 counterexample: a response whose `daily.time` array lists the
dates in descending order yields records in that same descending order —
the fetcher never sorts, so the output is not ordered by date ascending. -/
theorem fetch_not_sorted_counterexample :
    get_historical_temperature (.json (some ⟨[⟨2024, 1, 2⟩, ⟨2024, 1, 1⟩],
        [5, 6], [1, 2], [3, 4], [80, 81], [0, 1]⟩)) =
      .ok (some [⟨⟨2024, 1, 2⟩, 5, 1, 3, 80, 0⟩, ⟨⟨2024, 1, 1⟩, 6, 2, 4, 81, 1⟩]) ∧
    ¬ (([⟨⟨2024, 1, 2⟩, 5, 1, 3, 80, 0⟩, ⟨⟨2024, 1, 1⟩, 6, 2, 4, 81, 1⟩] : DF).map
        (fun r => r.date.key)).Chain' (· ≤ ·) := by
  constructor
  · rfl
  · simp [List.chain'_cons, Date.key]

/-- C8 amended: for a response containing a `daily` object whose parallel
arrays agree in length, the fetcher emits one record per day preserving
the response's order exactly; hence the records are ordered by date
ascending precisely when the response's `time` array is. -/
theorem fetch_preserves_response_order (b : DailyBlock)
    (h1 : b.temperature_2m_max.length = b.time.length)
    (h2 : b.temperature_2m_min.length = b.time.length)
    (h3 : b.temperature_2m_mean.length = b.time.length)
    (h4 : b.relative_humidity_2m_mean.length = b.time.length)
    (h5 : b.precipitation_sum.length = b.time.length) :
    ∃ recs, get_historical_temperature (.json (some b)) = .ok (some recs) ∧
      recs.map (·.date) = b.time ∧
      ((b.time.map Date.key).Chain' (· ≤ ·) →
        (recs.map (fun r => r.date.key)).Chain' (· ≤ ·)) := by
  refine ⟨_, rfl, zipRecords_map_date b.time _ _ _ _ _ h1 h2 h3 h4 h5, ?_⟩
  intro hasc
  have hmap : (zipRecords b.time b.temperature_2m_max b.temperature_2m_min
      b.temperature_2m_mean b.relative_humidity_2m_mean
      b.precipitation_sum).map (·.date) = b.time :=
    zipRecords_map_date b.time _ _ _ _ _ h1 h2 h3 h4 h5
  have : (zipRecords b.time b.temperature_2m_max b.temperature_2m_min
      b.temperature_2m_mean b.relative_humidity_2m_mean
      b.precipitation_sum).map (fun r => r.date.key) =
      ((zipRecords b.time b.temperature_2m_max b.temperature_2m_min
        b.temperature_2m_mean b.relative_humidity_2m_mean
        b.precipitation_sum).map (·.date)).map Date.key := by
    simp [List.map_map]
  rw [this, hmap]
  exact hasc

/-- Witness for C8 amended at a concrete two-day ascending response. -/
theorem fetch_preserves_response_order_witness :
    ([(5 : ℚ), 6].length = [(⟨2024, 1, 1⟩ : Date), ⟨2024, 1, 2⟩].length) ∧
    ∃ recs, get_historical_temperature (.json (some ⟨[⟨2024, 1, 1⟩, ⟨2024, 1, 2⟩],
        [5, 6], [1, 2], [3, 4], [80, 81], [0, 1]⟩)) = .ok (some recs) ∧
      recs.map (·.date) = [⟨2024, 1, 1⟩, ⟨2024, 1, 2⟩] ∧
      ((([(⟨2024, 1, 1⟩ : Date), ⟨2024, 1, 2⟩].map Date.key).Chain' (· ≤ ·)) →
        (recs.map (fun r => r.date.key)).Chain' (· ≤ ·)) := by
  refine ⟨rfl, ?_⟩
  exact fetch_preserves_response_order
    ⟨[⟨2024, 1, 1⟩, ⟨2024, 1, 2⟩], [5, 6], [1, 2], [3, 4], [80, 81], [0, 1]⟩
    rfl rfl rfl rfl rfl

/-- C9: a parsed JSON body lacking the `daily` key makes
`get_historical_temperature` return `None` — never an empty data frame —
and the pipeline loop includes a location in `temperature_data` exactly
when the fetch returned a frame (i.e. only a `None` result is treated as
a failed fetch). -/
theorem none_result_is_the_failed_fetch :
    get_historical_temperature (.json none) = .ok none ∧
    (∀ b, ∃ df, get_historical_temperature (.json (some b)) = .ok (some df)) ∧
    (∀ items : List (Coord × FetchResponse),
      (∀ it ∈ items, it.2 ≠ FetchResponse.networkError) →
      ∀ td dd, fetchLoop items = .ok (td, dd) →
        td = items.filterMap fun it =>
          match get_historical_temperature it.2 with
          | .ok (some df) => some (mkEntry it.1 df)
          | _ => none) := by
  refine ⟨rfl, fun b => ⟨_, rfl⟩, ?_⟩
  intro items h td dd hloop
  rw [fetchLoop_eq items h] at hloop
  simp only [Except.ok.injEq, Prod.mk.injEq] at hloop
  exact hloop.1.symm

/-- Concrete fixtures for witnesses and counterexamples. -/
def coordA : Coord := ⟨"A", "addrA", 1, 2⟩

def coordB : Coord := ⟨"B", "addrB", 3, 4⟩

def blockB : DailyBlock := ⟨[⟨2024, 1, 1⟩], [5], [1], [3], [80], [2]⟩

def dfB : DF := [⟨⟨2024, 1, 1⟩, 5, 1, 3, 80, 2⟩]

def itemsB : List (Coord × FetchResponse) := [(coordB, .json (some blockB))]

def itemsAB : List (Coord × FetchResponse) :=
  [(coordA, .json none), (coordB, .json (some blockB))]

def clk0 : Clock :=
  ⟨⟨2025, 1, 1, 12, 0, 0⟩, ⟨2025, 1, 1, 12, 0, 0⟩, ⟨2025, 1, 1, 12, 0, 0⟩⟩

/-- The reduced shape of a completed pipeline run: with no network error
the loop yields `successEntries`/`detailStep`, and line 307's guard
decides whether anything is written. -/
lemma pipeline_shape (items : List (Coord × FetchResponse)) (p : String)
    (clk : Clock) (h : ∀ it ∈ items, it.2 ≠ FetchResponse.networkError) :
    process_temperature_pipeline items p clk =
      (if (successEntries items).isEmpty then
        .ok { heatmap := none, trend_files := [], save := none }
      else
        .ok { heatmap := some (create_heatmap (successEntries items) p clk.heatmapNow)
              trend_files := create_trend_plots (items.foldl detailStep []) p clk.trendNow
              save := some (save_temperature_data (successEntries items)
                (items.foldl detailStep []) p clk.saveNow) }) := by
  unfold process_temperature_pipeline
  rw [fetchLoop_eq items h]

/-- Witness for C9 at a concrete one-location list with a missing-`daily`
response. -/
theorem none_result_is_the_failed_fetch_witness :
    (∀ it ∈ ([(⟨"A", "addrA", 1, 2⟩, FetchResponse.json none)] :
        List (Coord × FetchResponse)), it.2 ≠ FetchResponse.networkError) ∧
    ([] : List TempEntry) =
      ([(⟨"A", "addrA", 1, 2⟩, FetchResponse.json none)] :
        List (Coord × FetchResponse)).filterMap fun it =>
          match get_historical_temperature it.2 with
          | .ok (some df) => some (mkEntry it.1 df)
          | _ => none := by
  refine ⟨by decide, ?_⟩
  exact none_result_is_the_failed_fetch.2.2
    [(⟨"A", "addrA", 1, 2⟩, FetchResponse.json none)] (by decide) [] [] rfl

/-- C3 counterexample: a network error during the HTTP request of the
first location is not caught anywhere, so the run aborts instead of
silently excluding that location and continuing with the second. -/
theorem network_error_aborts_counterexample :
    process_temperature_pipeline [(coordA, .networkError), (coordB, .json (some blockB))]
      "out" clk0 = .error () := by
  rfl

/-- C3 amended: when no request raises a network error, a location whose
response lacks the `daily` key is silently excluded from all downstream
output — the heat points come exactly from the successful fetches and
every detail CSV belongs to a successful fetch — and the run completes. -/
theorem missing_daily_silently_excluded (items : List (Coord × FetchResponse))
    (p : String) (clk : Clock)
    (h : ∀ it ∈ items, it.2 ≠ FetchResponse.networkError) :
    ∃ out, process_temperature_pipeline items p clk = .ok out ∧
      (∀ hm, out.heatmap = some hm →
        hm.heatmap_data = (successEntries items).map fun d => (d.lat, d.lng, d.avg_temp)) ∧
      (∀ sv, out.save = some sv → ∀ f ∈ sv.detail_files,
        ∃ it ∈ items, hasDaily it.2 = true ∧
          f = p ++ "/temperature_data_" ++ it.1.aim_id ++ "_" ++
            strftimeTimestamp clk.saveNow ++ ".csv") := by
  rw [pipeline_shape items p clk h]
  by_cases hempty : (successEntries items).isEmpty
  · rw [if_pos hempty]
    refine ⟨_, rfl, ?_, ?_⟩
    · intro hm hhm; cases hhm
    · intro sv hsv; cases hsv
  · rw [if_neg hempty]
    refine ⟨_, rfl, ?_, ?_⟩
    · intro hm hhm
      injection hhm with hhm'
      rw [← hhm']
      rfl
    · intro sv hsv f hf
      injection hsv with hsv'
      rw [← hsv'] at hf
      simp only [save_temperature_data, List.mem_map] at hf
      obtain ⟨kv, hkv, hf⟩ := hf
      rcases mem_foldl_detailStep items [] kv hkv with h0 | ⟨it, hit, hdy, haim⟩
      · cases h0
      · exact ⟨it, hit, hdy, by rw [← hf, haim]⟩

/-- Witness for C3 amended: one missing-`daily` location followed by one
successful location. -/
theorem missing_daily_silently_excluded_witness :
    (∀ it ∈ itemsAB, it.2 ≠ FetchResponse.networkError) ∧
    ∃ out, process_temperature_pipeline itemsAB "out" clk0 = .ok out ∧
      (∀ hm, out.heatmap = some hm →
        hm.heatmap_data = (successEntries itemsAB).map fun d => (d.lat, d.lng, d.avg_temp)) ∧
      (∀ sv, out.save = some sv → ∀ f ∈ sv.detail_files,
        ∃ it ∈ itemsAB, hasDaily it.2 = true ∧
          f = "out" ++ "/temperature_data_" ++ it.1.aim_id ++ "_" ++
            strftimeTimestamp clk0.saveNow ++ ".csv") :=
  ⟨by decide, missing_daily_silently_excluded itemsAB "out" clk0 (by decide)⟩

/-- C4 counterexample: a length-two location list whose first fetch
succeeds and whose second raises a network error. The uncaught exception
aborts the run before `save_temperature_data` is reached, so zero detail
CSV files are written although one fetch succeeded — the unconditional
count equality fails. -/
theorem csv_count_mismatch_on_abort_counterexample :
    process_temperature_pipeline
        [(coordB, .json (some blockB)), (coordA, .networkError)] "out" clk0 =
      .error () ∧
    successCount [(coordB, .json (some blockB)), (coordA, .networkError)] = 1 ∧
    1 ≤ ([(coordB, FetchResponse.json (some blockB)),
          (coordA, FetchResponse.networkError)] :
        List (Coord × FetchResponse)).length := by
  refine ⟨rfl, by decide, by decide⟩

/-- C4 amended: for every location list of length at least one with
pairwise-distinct ids (as the coordinates YAML mapping guarantees), in
any run that completes — i.e. no request raises a network error — the
number of per-location detail CSV files written equals the number of
locations whose fetch succeeded; a run aborted by a network error writes
no files at all, regardless of earlier successes. -/
theorem detail_csv_count_eq_successes (items : List (Coord × FetchResponse))
    (p : String) (clk : Clock)
    (h1 : 1 ≤ items.length)
    (h2 : (items.map fun it => it.1.aim_id).Nodup)
    (h3 : ∀ it ∈ items, it.2 ≠ FetchResponse.networkError) :
    ∃ out, process_temperature_pipeline items p clk = .ok out ∧
      (match out.save with
       | some sv => sv.detail_files.length
       | none => 0) = successCount items := by
  have hdet : items.foldl detailStep [] = successDetails items := by
    simpa using foldl_detailStep_eq items [] (by simp) h2
  rw [pipeline_shape items p clk h3]
  by_cases hempty : (successEntries items).isEmpty
  · rw [if_pos hempty]
    refine ⟨_, rfl, ?_⟩
    have h0 : successCount items = 0 :=
      (successEntries_eq_nil_iff items).mp (List.isEmpty_iff.mp hempty)
    simp [h0]
  · rw [if_neg hempty]
    refine ⟨_, rfl, ?_⟩
    simp only [save_temperature_data, List.length_map, hdet]
    exact successDetails_length items

/-- Witness for C4 at a concrete one-location list whose fetch succeeds. -/
theorem detail_csv_count_eq_successes_witness :
    (1 ≤ itemsB.length ∧ (itemsB.map fun it => it.1.aim_id).Nodup ∧
      ∀ it ∈ itemsB, it.2 ≠ FetchResponse.networkError) ∧
    ∃ out, process_temperature_pipeline itemsB "out" clk0 = .ok out ∧
      (match out.save with
       | some sv => sv.detail_files.length
       | none => 0) = successCount itemsB :=
  ⟨⟨by decide, by decide, by decide⟩,
   detail_csv_count_eq_successes itemsB "out" clk0 (by decide) (by decide) (by decide)⟩

/-- C5: if zero location fetches succeed, a completed run writes no
heat-map HTML, no trend PNG, no CSV and no JSON at all. -/
theorem zero_successes_no_output (items : List (Coord × FetchResponse))
    (p : String) (clk : Clock) (h0 : successCount items = 0) :
    ∀ out, process_temperature_pipeline items p clk = .ok out →
      out.heatmap = none ∧ out.trend_files = [] ∧ out.save = none := by
  intro out hout
  have hne : ∀ it ∈ items, it.2 ≠ FetchResponse.networkError := by
    unfold process_temperature_pipeline at hout
    cases hfl : fetchLoop items with
    | error e => rw [hfl] at hout; cases hout
    | ok tddd =>
      exact fetchLoop_ok_no_networkError items (.ok ([], [])) tddd
        (by simpa [fetchLoop] using hfl)
  rw [pipeline_shape items p clk hne] at hout
  have hempty : (successEntries items).isEmpty := by
    rw [(successEntries_eq_nil_iff items).mpr h0]
    rfl
  rw [if_pos hempty] at hout
  injection hout with hout'
  rw [← hout']
  exact ⟨rfl, rfl, rfl⟩

/-- Witness for C5 at a concrete list whose only location lacks `daily`. -/
theorem zero_successes_no_output_witness :
    (successCount [(coordA, FetchResponse.json none)] = 0) ∧
    ((⟨none, [], none⟩ : PipelineOutput).heatmap = none ∧
      (⟨none, [], none⟩ : PipelineOutput).trend_files = [] ∧
      (⟨none, [], none⟩ : PipelineOutput).save = none) :=
  ⟨by decide,
   zero_successes_no_output [(coordA, .json none)] "out" clk0 (by decide)
     ⟨none, [], none⟩ (by rfl)⟩

/-- C7: for a run with at least one successful fetch and no network
error, the heat-map is centered at the arithmetic mean of the fetched
locations' coordinates, and each fetched location contributes the heat
point (lat, lng, mean of its temperature_mean series over the whole
fetched period). -/
theorem heatmap_center_mean_and_weights (items : List (Coord × FetchResponse))
    (p : String) (clk : Clock)
    (h3 : ∀ it ∈ items, it.2 ≠ FetchResponse.networkError)
    (h1 : 1 ≤ successCount items) :
    ∃ out hm, process_temperature_pipeline items p clk = .ok out ∧
      out.heatmap = some hm ∧
      hm.center_lat = ((successEntries items).map (·.lat)).sum / (successCount items : ℚ) ∧
      hm.center_lng = ((successEntries items).map (·.lng)).sum / (successCount items : ℚ) ∧
      hm.heatmap_data = (successEntries items).map (fun d => (d.lat, d.lng, d.avg_temp)) ∧
      (∀ c b df, (c, FetchResponse.json (some b)) ∈ items →
        get_historical_temperature (.json (some b)) = .ok (some df) →
        (c.latitude, c.longitude, seriesMean (df.map (·.temperature_mean))) ∈
          hm.heatmap_data) := by
  have hempty : ¬ (successEntries items).isEmpty := by
    intro hemp
    have := (successEntries_eq_nil_iff items).mp (List.isEmpty_iff.mp hemp)
    omega
  rw [pipeline_shape items p clk h3]
  rw [if_neg hempty]
  refine ⟨_, create_heatmap (successEntries items) p clk.heatmapNow, rfl, rfl, ?_, ?_, rfl, ?_⟩
  · show ((successEntries items).map (·.lat)).sum /
        (((successEntries items).map (·.lat)).length : ℚ) = _
    rw [List.length_map, successEntries_length]
  · show ((successEntries items).map (·.lng)).sum /
        (((successEntries items).map (·.lng)).length : ℚ) = _
    rw [List.length_map, successEntries_length]
  · intro c b df hmem hdf
    have hdf' : df = zipRecords b.time b.temperature_2m_max b.temperature_2m_min
        b.temperature_2m_mean b.relative_humidity_2m_mean b.precipitation_sum := by
      simpa [get_historical_temperature] using hdf.symm
    have hent : mkEntry c df ∈ successEntries items := by
      refine List.mem_filterMap.mpr ⟨(c, .json (some b)), hmem, ?_⟩
      rw [show get_historical_temperature (FetchResponse.json (some b)) = .ok (some df) from hdf]
    show (c.latitude, c.longitude, seriesMean (df.map (·.temperature_mean))) ∈
      (successEntries items).map (fun d => (d.lat, d.lng, d.avg_temp))
    exact List.mem_map.mpr ⟨mkEntry c df, hent, rfl⟩

/-- Witness for C7 at a concrete one-location run. -/
theorem heatmap_center_mean_and_weights_witness :
    ((∀ it ∈ itemsB, it.2 ≠ FetchResponse.networkError) ∧ 1 ≤ successCount itemsB) ∧
    ∃ out hm, process_temperature_pipeline itemsB "out" clk0 = .ok out ∧
      out.heatmap = some hm ∧
      hm.center_lat = ((successEntries itemsB).map (·.lat)).sum / (successCount itemsB : ℚ) ∧
      hm.center_lng = ((successEntries itemsB).map (·.lng)).sum / (successCount itemsB : ℚ) ∧
      hm.heatmap_data = (successEntries itemsB).map (fun d => (d.lat, d.lng, d.avg_temp)) ∧
      (∀ c b df, (c, FetchResponse.json (some b)) ∈ itemsB →
        get_historical_temperature (.json (some b)) = .ok (some df) →
        (c.latitude, c.longitude, seriesMean (df.map (·.temperature_mean))) ∈
          hm.heatmap_data) :=
  ⟨⟨by decide, by decide⟩,
   heatmap_center_mean_and_weights itemsB "out" clk0 (by decide) (by decide)⟩

/-- C10: `create_heatmap` divides by the length of its input list, so it
needs a non-empty `temperature_data`; the pipeline only ever applies it
to a non-empty list (the line 307 guard), so the zero-denominator branch
is unreachable in any completed run. -/
theorem heatmap_called_only_nonempty (items : List (Coord × FetchResponse))
    (p : String) (clk : Clock) :
    ∀ out, process_temperature_pipeline items p clk = .ok out →
      ∀ hm, out.heatmap = some hm →
        ∃ td, td ≠ [] ∧ 0 < (td.map (·.lat)).length ∧
          hm = create_heatmap td p clk.heatmapNow := by
  intro out hout hm hhm
  have hne : ∀ it ∈ items, it.2 ≠ FetchResponse.networkError := by
    unfold process_temperature_pipeline at hout
    cases hfl : fetchLoop items with
    | error e => rw [hfl] at hout; cases hout
    | ok tddd =>
      exact fetchLoop_ok_no_networkError items (.ok ([], [])) tddd
        (by simpa [fetchLoop] using hfl)
  rw [pipeline_shape items p clk hne] at hout
  by_cases hempty : (successEntries items).isEmpty
  · rw [if_pos hempty] at hout
    injection hout with hout'
    rw [← hout'] at hhm
    cases hhm
  · rw [if_neg hempty] at hout
    injection hout with hout'
    rw [← hout'] at hhm
    injection hhm with hhm'
    refine ⟨successEntries items, ?_, ?_, hhm'.symm⟩
    · intro hnil
      exact hempty (by rw [hnil]; rfl)
    · rw [List.length_map]
      have := List.isEmpty_iff.not.mp hempty
      cases hsucc : successEntries items with
      | nil => exact absurd hsucc this
      | cons a l => simp

/-- Witness for C10 at a concrete one-location run whose output is
spelled out with the model's own exporter functions. -/
theorem heatmap_called_only_nonempty_witness :
    ∃ td, td ≠ [] ∧ 0 < (td.map (·.lat)).length ∧
      create_heatmap (successEntries itemsB) "out" clk0.heatmapNow =
        create_heatmap td "out" clk0.heatmapNow :=
  heatmap_called_only_nonempty itemsB "out" clk0
    ⟨some (create_heatmap (successEntries itemsB) "out" clk0.heatmapNow),
     create_trend_plots (itemsB.foldl detailStep []) "out" clk0.trendNow,
     some (save_temperature_data (successEntries itemsB)
       (itemsB.foldl detailStep []) "out" clk0.saveNow)⟩
    (by rw [pipeline_shape itemsB "out" clk0 (by decide)]; rfl)
    (create_heatmap (successEntries itemsB) "out" clk0.heatmapNow) rfl

/-- A clock whose save-stage observation falls one second after the
heat-map stage's: a run that straddles a second boundary. -/
def clkSkew : Clock :=
  ⟨⟨2025, 1, 1, 12, 0, 0⟩, ⟨2025, 1, 1, 12, 0, 0⟩, ⟨2025, 1, 1, 12, 0, 1⟩⟩

/-- C6 counterexample: the timestamp is generated separately inside each
output function, not once per pipeline execution; a single run whose
stages straddle a second boundary suffixes its heat-map and its
statistics CSV with two different timestamps. -/
theorem run_timestamp_counterexample :
    ((process_temperature_pipeline itemsB "out" clkSkew).toOption.bind
      fun out => out.heatmap.map (·.file_path)) =
        some "out/temperature_heatmap_20250101_120000.html" ∧
    ((process_temperature_pipeline itemsB "out" clkSkew).toOption.bind
      fun out => out.save.map (·.stats_file)) =
        some "out/temperature_statistics_20250101_120001.csv" ∧
    strftimeTimestamp clkSkew.heatmapNow ≠ strftimeTimestamp clkSkew.saveNow := by
  refine ⟨?_, ?_, by decide⟩ <;> rfl

lemma append_middle_cancel {p s a b : String} (h : p ++ a ++ s = p ++ b ++ s) :
    a = b := by
  have hd := congrArg String.data h
  simp only [String.data_append] at hd
  exact String.ext (List.append_cancel_left (List.append_cancel_right hd))

/-- C6 amended: each exporter stage generates its own
`YYYYmmdd_HHMMSS` timestamp when it runs and suffixes every filename it
writes with it; two stage invocations whose formatted timestamps differ
therefore write distinctly named heat-map, summary and statistics files,
and within one `save_temperature_data` call every detail CSV carries
that single call's timestamp. (Two runs inside the same second format
identically and do overwrite.) -/
theorem per_stage_timestamped_filenames (p : String)
    (tdA tdB adA adB : List TempEntry) (ddA ddB : List (String × DF))
    (tA tB : DateTime)
    (h : strftimeTimestamp tA ≠ strftimeTimestamp tB) :
    (create_heatmap tdA p tA).file_path ≠ (create_heatmap tdB p tB).file_path ∧
    (save_temperature_data adA ddA p tA).summary_file ≠
      (save_temperature_data adB ddB p tB).summary_file ∧
    (save_temperature_data adA ddA p tA).stats_file ≠
      (save_temperature_data adB ddB p tB).stats_file ∧
    (∀ f ∈ (save_temperature_data adA ddA p tA).detail_files,
      ∃ a, f = p ++ "/temperature_data_" ++ a ++ "_" ++
        strftimeTimestamp tA ++ ".csv") := by
  refine ⟨fun heq => h ?_, fun heq => h ?_, fun heq => h ?_, ?_⟩
  · exact append_middle_cancel
      (show p ++ "/temperature_heatmap_" ++ strftimeTimestamp tA ++ ".html" =
        p ++ "/temperature_heatmap_" ++ strftimeTimestamp tB ++ ".html" from heq)
  · exact append_middle_cancel
      (show p ++ "/temperature_summary_" ++ strftimeTimestamp tA ++ ".json" =
        p ++ "/temperature_summary_" ++ strftimeTimestamp tB ++ ".json" from heq)
  · exact append_middle_cancel
      (show p ++ "/temperature_statistics_" ++ strftimeTimestamp tA ++ ".csv" =
        p ++ "/temperature_statistics_" ++ strftimeTimestamp tB ++ ".csv" from heq)
  · intro f hf
    simp only [save_temperature_data, List.mem_map] at hf
    obtain ⟨kv, _, hf⟩ := hf
    exact ⟨kv.1, hf.symm⟩

/-- Witness for C6 amended at two concrete instants one second apart. -/
theorem per_stage_timestamped_filenames_witness :
    (strftimeTimestamp ⟨2025, 1, 1, 12, 0, 0⟩ ≠ strftimeTimestamp ⟨2025, 1, 1, 12, 0, 1⟩) ∧
    (create_heatmap [] "out" ⟨2025, 1, 1, 12, 0, 0⟩).file_path ≠
      (create_heatmap [] "out" ⟨2025, 1, 1, 12, 0, 1⟩).file_path :=
  ⟨by decide,
   (per_stage_timestamped_filenames "out" [] [] [] [] [("B", dfB)] [("B", dfB)]
     ⟨2025, 1, 1, 12, 0, 0⟩ ⟨2025, 1, 1, 12, 0, 1⟩ (by decide)).1⟩

/-- C1 counterexample: for a location with one January record the winter
group exists (its temperature-mean min and its precipitation sum and max
are emitted), yet no `winter_precipitation_min` entry is emitted — the
agg dict at line 169 computes `sum, mean, max` for precipitation, not
`mean, min, max`. -/
theorem stats_missing_precipitation_min_counterexample :
    ("winter_temperature_mean_min" ∈
        (statsRowFor [mkEntry coordB dfB] "B" dfB).stats.map Prod.fst) ∧
    ("winter_precipitation_sum" ∈
        (statsRowFor [mkEntry coordB dfB] "B" dfB).stats.map Prod.fst) ∧
    ("winter_precipitation_max" ∈
        (statsRowFor [mkEntry coordB dfB] "B" dfB).stats.map Prod.fst) ∧
    ("winter_precipitation_min" ∉
        (statsRowFor [mkEntry coordB dfB] "B" dfB).stats.map Prod.fst) := by
  decide

/-- C1 amended: for every location data frame and every season present in
it, the statistics row contains, keyed
`"{season.lower}_{metric}_{statistic}"`, the two-place-rounded mean, min
and max of the three temperature metrics and humidity, and the rounded
sum, mean and max (not min) for precipitation — fifteen entries per
season — merged with the location's identity fields. -/
theorem stats_row_amended (all_data : List TempEntry) (aim : String) (df : DF)
    (s : String) (hs : s ∈ seasonsOf df) :
    ((lowerString s ++ "_temperature_mean_mean",
        round2 (seriesMean (seasonColumn df (fun r => r.temperature_mean) s))) ∈
          (statsRowFor all_data aim df).stats ∧
      (lowerString s ++ "_temperature_mean_min",
        round2 (seriesMin (seasonColumn df (fun r => r.temperature_mean) s))) ∈
          (statsRowFor all_data aim df).stats ∧
      (lowerString s ++ "_temperature_mean_max",
        round2 (seriesMax (seasonColumn df (fun r => r.temperature_mean) s))) ∈
          (statsRowFor all_data aim df).stats ∧
      (lowerString s ++ "_temperature_max_mean",
        round2 (seriesMean (seasonColumn df (fun r => r.temperature_max) s))) ∈
          (statsRowFor all_data aim df).stats ∧
      (lowerString s ++ "_temperature_max_min",
        round2 (seriesMin (seasonColumn df (fun r => r.temperature_max) s))) ∈
          (statsRowFor all_data aim df).stats ∧
      (lowerString s ++ "_temperature_max_max",
        round2 (seriesMax (seasonColumn df (fun r => r.temperature_max) s))) ∈
          (statsRowFor all_data aim df).stats ∧
      (lowerString s ++ "_temperature_min_mean",
        round2 (seriesMean (seasonColumn df (fun r => r.temperature_min) s))) ∈
          (statsRowFor all_data aim df).stats ∧
      (lowerString s ++ "_temperature_min_min",
        round2 (seriesMin (seasonColumn df (fun r => r.temperature_min) s))) ∈
          (statsRowFor all_data aim df).stats ∧
      (lowerString s ++ "_temperature_min_max",
        round2 (seriesMax (seasonColumn df (fun r => r.temperature_min) s))) ∈
          (statsRowFor all_data aim df).stats ∧
      (lowerString s ++ "_humidity_mean",
        round2 (seriesMean (seasonColumn df (fun r => r.humidity) s))) ∈
          (statsRowFor all_data aim df).stats ∧
      (lowerString s ++ "_humidity_min",
        round2 (seriesMin (seasonColumn df (fun r => r.humidity) s))) ∈
          (statsRowFor all_data aim df).stats ∧
      (lowerString s ++ "_humidity_max",
        round2 (seriesMax (seasonColumn df (fun r => r.humidity) s))) ∈
          (statsRowFor all_data aim df).stats ∧
      (lowerString s ++ "_precipitation_sum",
        round2 ((seasonColumn df (fun r => r.precipitation) s).sum)) ∈
          (statsRowFor all_data aim df).stats ∧
      (lowerString s ++ "_precipitation_mean",
        round2 (seriesMean (seasonColumn df (fun r => r.precipitation) s))) ∈
          (statsRowFor all_data aim df).stats ∧
      (lowerString s ++ "_precipitation_max",
        round2 (seriesMax (seasonColumn df (fun r => r.precipitation) s))) ∈
          (statsRowFor all_data aim df).stats) ∧
    (statsRowFor all_data aim df).stats.length = 15 * (seasonsOf df).length ∧
    (statsRowFor all_data aim df).aim_id = aim ∧
    (∀ e, all_data.find? (fun d => d.aim_id = aim) = some e →
      (statsRowFor all_data aim df).address = some e.address ∧
      (statsRowFor all_data aim df).latitude = some e.lat ∧
      (statsRowFor all_data aim df).longitude = some e.lng) := by
  have hsub : ∀ x ∈ statPairs df s, x ∈ (statsRowFor all_data aim df).stats := by
    intro x hx
    show x ∈ (seasonsOf df).flatMap fun s' => statPairs df s'
    exact List.mem_flatMap.mpr ⟨s, hs, hx⟩
  refine ⟨?_, ?_, rfl, ?_⟩
  · refine ⟨?_, ?_, ?_, ?_, ?_, ?_, ?_, ?_, ?_, ?_, ?_, ?_, ?_, ?_, ?_⟩ <;>
      exact hsub _ (by simp [statPairs, aggDict, applyStat, String.append_assoc])
  · show ((seasonsOf df).flatMap fun s' => statPairs df s').length = _
    rw [List.length_flatMap]
    rw [show List.length ∘ (fun s' => statPairs df s') = fun _ => 15 from
      funext fun s' => by simp [statPairs, aggDict]]
    simp [mul_comm]
  · intro e he
    refine ⟨?_, ?_, ?_⟩ <;>
      · show (all_data.find? fun d => d.aim_id = aim).map _ = _
        rw [he]
        rfl

/-- Witness for C1 amended: season `"Winter"` of the one-record January
frame. -/
theorem stats_row_amended_witness :
    ("Winter" ∈ seasonsOf dfB) ∧
    (statsRowFor [mkEntry coordB dfB] "B" dfB).aim_id = "B" :=
  ⟨by decide, (stats_row_amended [mkEntry coordB dfB] "B" dfB "Winter" (by decide)).2.2.1⟩

end TempStatistic
